import Mathlib

/-!
Verification of the SimpliDev browser-extension connection/session relay
engine (`sidVoiceConnection.ts` and the background `TabShareExtension`)
against its natural-language specification.

The TypeScript source is shallowly embedded: each method becomes a pure
Lean function from an explicit state (plus an environment of Chrome-API
collaborators) to a new state, a list of observable effects, and a result.
JavaScript `number | null / undefined` fields become `Option Nat`, and the
JavaScript truthiness tests the source performs (`if (!this._connectedTabId)`,
`if (tab.windowId)`, ...) are modelled by `truthyNat` / `truthyStr`.
Delays are in milliseconds; one spec "time-unit" is 1000 ms.
-/

/-- The single-quote character (codepoint 39), built by codepoint so the
generated JavaScript snippets can be assembled without quote literals. -/
def quoteC : Char := Char.ofNat 39

/-- The backslash character (codepoint 92). -/
def backslashC : Char := Char.ofNat 92

/-- Single-quote as a one-character string. -/
def sqS : String := String.singleton quoteC

/-- JavaScript truthiness of a `number | null | undefined` value:
`null`/`undefined` and `0` are falsy, every other number is truthy. -/
def truthyNat : Option Nat → Bool
  | none => false
  | some n => n != 0

/-- JavaScript truthiness of a `string | undefined` value:
`undefined` and the empty string are falsy. -/
def truthyStr : Option String → Bool
  | none => false
  | some s => !s.isEmpty

/-- Embedding of `text.replace(/'/g, "\\'")` from `_type`
(src/sidVoiceConnection.ts:313): every single quote is replaced by
backslash-quote; no other character (in particular no backslash) is touched. -/
def escapeTypeText (t : String) : String :=
  String.mk (t.data.foldr
    (fun c acc => if c = quoteC then backslashC :: quoteC :: acc else c :: acc) [])

/-- JavaScript single-character escape decoding inside a string literal:
a few standard escapes map to control characters, any other escaped
character (including quote and backslash) denotes itself. -/
def unescChar (c : Char) : Char :=
  if c = Char.ofNat 110 then Char.ofNat 10       -- n: newline
  else if c = Char.ofNat 116 then Char.ofNat 9   -- t: tab
  else if c = Char.ofNat 114 then Char.ofNat 13  -- r: carriage return
  else if c = Char.ofNat 98 then Char.ofNat 8    -- b: backspace
  else if c = Char.ofNat 48 then Char.ofNat 0    -- 0: NUL
  else c

/-- Parser for the body of a JavaScript single-quoted string literal,
starting just after the opening quote.  Returns the decoded contents and
the characters remaining after the closing quote, or `none` if the input
ends before an unescaped closing quote is found. -/
def parseSQ : List Char → Option (List Char × List Char)
  | [] => none
  | c :: rest =>
    if c = backslashC then
      match rest with
      | [] => none
      | e :: rest2 =>
        match parseSQ rest2 with
        | none => none
        | some p => some (unescChar e :: p.1, p.2)
    else if c = quoteC then
      some ([], rest)
    else
      match parseSQ rest with
      | none => none
      | some p => some (c :: p.1, p.2)

/-- Parsing the spliced literal back: the generated expression contains
`'` ++ escaped payload ++ `'` ++ tail; this parses from just after the
opening quote.  Round-tripping means the result is `some (t.data, tail)`. -/
def spliceParse (t : String) (tail : List Char) : Option (List Char × List Char) :=
  parseSQ ((escapeTypeText t).data ++ quoteC :: tail)

/-- The generated `Runtime.evaluate` expression of `_type`
(src/sidVoiceConnection.ts:310-316); template-literal whitespace is
normalised to single spaces, the splice structure is kept exactly. -/
def typeExpression (selector text : String) : String :=
  "const el = document.querySelector(" ++ sqS ++ selector ++ sqS ++ "); " ++
  "if (el) \x7b el.value = " ++ sqS ++ escapeTypeText text ++ sqS ++ "; " ++
  "el.dispatchEvent(new Event(" ++ sqS ++ "input" ++ sqS ++
  ", \x7b bubbles: true \x7d)); \x7d"

/-- The generated `Runtime.evaluate` expression of `_click`
(src/sidVoiceConnection.ts:293). -/
def clickExpression (selector : String) : String :=
  "document.querySelector(" ++ sqS ++ selector ++ sqS ++ ")?.click()"

/-- The payload `it's a test` from the spec's round-trip example. -/
def itsATest : String := "it" ++ sqS ++ "s a test"


/-- A Chrome tab as seen by the extension (`chrome.tabs.Tab` projected onto
the fields the source reads). -/
structure Tab where
  id : Option Nat := none
  windowId : Nat := 0
  url : Option String := none
  title : Option String := none
  active : Bool := false
  deriving Repr, DecidableEq

/-- The per-tab record `_getTabs` maps each eligible tab to
(src/sidVoiceConnection.ts:255-260). -/
structure TabInfo where
  id : Option Nat
  title : Option String
  url : Option String
  active : Bool
  deriving Repr, DecidableEq

/-- The `data` payloads appearing in `BrowserResponse.data`. -/
inductive RespData where
  | tabId (id : Option Nat)
  | tabs (tabs : List TabInfo) (connectedTabId : Option Nat)
  | snapshot (nodes : List Nat)
  | screenshot (dataUrl : String)
  deriving Repr, DecidableEq

/-- The wire `BrowserResponse` (src/sidVoiceConnection.ts:23-29).  The
source constructs every response with the literal field `type: 'response'`. -/
structure BrowserResponse where
  type : String := "response"
  id : Option String := none
  success : Bool
  data : Option RespData := none
  error : Option String := none
  deriving Repr, DecidableEq

/-- An inbound `BrowserCommand` (src/sidVoiceConnection.ts:14-21).  The TS
type is a closed union of kinds, but at runtime the cast `data as
BrowserCommand` admits any string, so `type` is a `String` here; optional
fields that a malformed envelope may omit are `Option`. -/
structure BrowserCommand where
  type : String
  id : Option String := none
  url : Option String := none
  selector : Option String := none
  text : Option String := none
  tabId : Option Nat := none
  deriving Repr, DecidableEq

/-- Observable Chrome-side effects of the session-controller actions. -/
inductive CEff where
  | tabsGet (id : Option Nat)
  | tabsUpdate (id : Option Nat) (url : Option String)
  | tabsCreate (url : Option String)
  | windowsUpdateFocused (w : Nat)
  | tabsQuery
  | debuggerAttach (tab : Nat)
  | debuggerDetach (tab : Nat)
  | addOnEventListener
  | removeOnEventListener
  | runtimeEvaluate (tab : Nat) (expr : String)
  | getFullAXTree (tab : Nat)
  | captureVisibleTab
  deriving Repr, DecidableEq

/-- Environment of Chrome-API collaborators.  Each call either resolves
(`Except.ok`) or rejects (`Except.error message`); arguments are `Option`
wherever the source can pass `undefined` through a non-null assertion. -/
structure Env where
  tabsGet : Option Nat → Except String (Option Tab)
  tabsUpdate : Option Nat → Option String → Except String Unit
  tabsCreate : Option String → Except String Nat
  windowsUpdate : Nat → Except String Unit
  tabsQuery : Except String (List Tab)
  debuggerAttach : Nat → Except String Unit
  debuggerDetach : Nat → Except String Unit
  runtimeEvaluate : Nat → String → Except String Unit
  getAXTree : Nat → Except String (List Nat)
  captureVisibleTab : Except String String

/-- WebSocket readyState. -/
inductive WsReady where
  | connecting
  | opened
  | closing
  | closed
  deriving Repr, DecidableEq

/-- The mutable fields of `SidVoiceConnection` (src/sidVoiceConnection.ts:32-40).
`ws` is `none` when `_ws === null`; timer handles become Booleans recording
whether a timer is armed; `debuggeeTabId` is `_debuggee.tabId`. -/
structure SVState where
  ws : Option WsReady := none
  email : String := ""
  connectedTabId : Option Nat := none
  debuggeeTabId : Option Nat := none
  eventListener : Bool := false
  reconnectAttempts : Nat := 0
  reconnectTimer : Bool := false
  pingTimer : Bool := false
  deriving Repr, DecidableEq

/-- The freshly constructed `SidVoiceConnection` state. -/
def SVState.init : SVState := {}

/-- The `{ type:'response', success:false, error:'No tab connected' }`
response every action returns when no tab is bound. -/
def noTabResp : BrowserResponse :=
  { success := false, error := some "No tab connected" }

/-- `_ensureDebuggerAttached` (src/sidVoiceConnection.ts:346-372): throw if
no tab connected; no-op if the debuggee already targets the connected tab;
otherwise best-effort detach from the old debuggee, reassign the debuggee,
attach, and register the single `chrome.debugger.onEvent` listener if none
is registered yet. -/
def ensureDebuggerAttached (env : Env) (s : SVState) :
    SVState × List CEff × Except String Unit :=
  if !truthyNat s.connectedTabId then
    (s, [], .error "No tab connected")
  else if s.debuggeeTabId == s.connectedTabId then
    (s, [], .ok ())
  else
    let detachEffs : List CEff :=
      if truthyNat s.debuggeeTabId then
        [.debuggerDetach (s.debuggeeTabId.getD 0)]
      else []
    let newTab := s.connectedTabId.getD 0
    let s1 := { s with debuggeeTabId := s.connectedTabId }
    match env.debuggerAttach newTab with
    | .error m => (s1, detachEffs ++ [.debuggerAttach newTab], .error m)
    | .ok _ =>
      if !s1.eventListener then
        ({ s1 with eventListener := true },
         detachEffs ++ [.debuggerAttach newTab, .addOnEventListener], .ok ())
      else
        (s1, detachEffs ++ [.debuggerAttach newTab], .ok ())

/-- `_navigate` (src/sidVoiceConnection.ts:237-249): update the connected
tab in place if one is bound, otherwise create a new tab and bind it. -/
def navigateAct (env : Env) (s : SVState) (url : Option String) :
    SVState × List CEff × Except String BrowserResponse :=
  if truthyNat s.connectedTabId then
    match env.tabsUpdate s.connectedTabId url with
    | .error m => (s, [.tabsUpdate s.connectedTabId url], .error m)
    | .ok _ =>
      (s, [.tabsUpdate s.connectedTabId url],
       .ok { success := true, data := some (.tabId s.connectedTabId) })
  else
    match env.tabsCreate url with
    | .error m => (s, [.tabsCreate url], .error m)
    | .ok newId =>
      let s1 := { s with connectedTabId := some newId }
      (s1, [.tabsCreate url],
       .ok { success := true, data := some (.tabId s1.connectedTabId) })

/-- `tab.url.startsWith(scheme)`. -/
def strStartsWith (s pre : String) : Bool := pre.data.isPrefixOf s.data

/-- The internal/privileged schemes excluded from `_getTabs`
(src/sidVoiceConnection.ts:254). -/
def privilegedSchemes : List String := ["chrome:", "edge:", "devtools:"]

/-- The filter predicate of `_getTabs`: url truthy and not starting with a
privileged scheme. -/
def tabEligible (t : Tab) : Bool :=
  truthyStr t.url && !(privilegedSchemes.any fun sch => strStartsWith (t.url.getD "") sch)

/-- The projection `_getTabs` applies to each eligible tab. -/
def tabToInfo (t : Tab) : TabInfo :=
  { id := t.id, title := t.title, url := t.url, active := t.active }

/-- `_getTabs` (src/sidVoiceConnection.ts:251-263). -/
def getTabsAct (env : Env) (s : SVState) :
    SVState × List CEff × Except String BrowserResponse :=
  match env.tabsQuery with
  | .error m => (s, [.tabsQuery], .error m)
  | .ok tabs =>
    let filteredTabs := (tabs.filter tabEligible).map tabToInfo
    (s, [.tabsQuery],
     .ok { success := true, data := some (.tabs filteredTabs s.connectedTabId) })

/-- `_selectTab` (src/sidVoiceConnection.ts:265-280): resolve the tab (a
falsy result yields the `Tab not found` failure), rebind
`_connectedTabId`, activate the tab, focus its window when `tab.windowId`
is truthy, and return the tab id. -/
def selectTabAct (env : Env) (s : SVState) (tabId : Option Nat) :
    SVState × List CEff × Except String BrowserResponse :=
  match env.tabsGet tabId with
  | .error m => (s, [.tabsGet tabId], .error m)
  | .ok none =>
    (s, [.tabsGet tabId], .ok { success := false, error := some "Tab not found" })
  | .ok (some tab) =>
    let s1 := { s with connectedTabId := tabId }
    match env.tabsUpdate tabId none with
    | .error m => (s1, [.tabsGet tabId, .tabsUpdate tabId none], .error m)
    | .ok _ =>
      if tab.windowId != 0 then
        match env.windowsUpdate tab.windowId with
        | .error m =>
          (s1, [.tabsGet tabId, .tabsUpdate tabId none,
                .windowsUpdateFocused tab.windowId], .error m)
        | .ok _ =>
          (s1, [.tabsGet tabId, .tabsUpdate tabId none,
                .windowsUpdateFocused tab.windowId],
           .ok { success := true, data := some (.tabId tabId) })
      else
        (s1, [.tabsGet tabId, .tabsUpdate tabId none],
         .ok { success := true, data := some (.tabId tabId) })

/-- `_click` (src/sidVoiceConnection.ts:282-298).  An absent selector is
interpolated by the template literal as the text `undefined`. -/
def clickAct (env : Env) (s : SVState) (selector : Option String) :
    SVState × List CEff × Except String BrowserResponse :=
  if !truthyNat s.connectedTabId then (s, [], .ok noTabResp)
  else
    match ensureDebuggerAttached env s with
    | (s1, e1, .error m) => (s1, e1, .error m)
    | (s1, e1, .ok _) =>
      let expr := clickExpression (selector.getD "undefined")
      let tab := s1.debuggeeTabId.getD 0
      match env.runtimeEvaluate tab expr with
      | .error m => (s1, e1 ++ [.runtimeEvaluate tab expr], .error m)
      | .ok _ => (s1, e1 ++ [.runtimeEvaluate tab expr], .ok { success := true })

/-- `_type` (src/sidVoiceConnection.ts:300-321).  With `text` absent the
source evaluates `undefined.replace(...)` while building the expression,
which throws a TypeError (modelled by the fixed error message). -/
def typeAct (env : Env) (s : SVState) (selector text : Option String) :
    SVState × List CEff × Except String BrowserResponse :=
  if !truthyNat s.connectedTabId then (s, [], .ok noTabResp)
  else
    match ensureDebuggerAttached env s with
    | (s1, e1, .error m) => (s1, e1, .error m)
    | (s1, e1, .ok _) =>
      match text with
      | none => (s1, e1, .error "TypeError: text is undefined")
      | some t =>
        let expr := typeExpression (selector.getD "undefined") t
        let tab := s1.debuggeeTabId.getD 0
        match env.runtimeEvaluate tab expr with
        | .error m => (s1, e1 ++ [.runtimeEvaluate tab expr], .error m)
        | .ok _ => (s1, e1 ++ [.runtimeEvaluate tab expr], .ok { success := true })

/-- `_getSnapshot` (src/sidVoiceConnection.ts:323-334). -/
def getSnapshotAct (env : Env) (s : SVState) :
    SVState × List CEff × Except String BrowserResponse :=
  if !truthyNat s.connectedTabId then (s, [], .ok noTabResp)
  else
    match ensureDebuggerAttached env s with
    | (s1, e1, .error m) => (s1, e1, .error m)
    | (s1, e1, .ok _) =>
      let tab := s1.debuggeeTabId.getD 0
      match env.getAXTree tab with
      | .error m => (s1, e1 ++ [.getFullAXTree tab], .error m)
      | .ok nodes =>
        (s1, e1 ++ [.getFullAXTree tab],
         .ok { success := true, data := some (.snapshot nodes) })

/-- `_getScreenshot` (src/sidVoiceConnection.ts:336-344); note it does not
attach the debugger. -/
def getScreenshotAct (env : Env) (s : SVState) :
    SVState × List CEff × Except String BrowserResponse :=
  if !truthyNat s.connectedTabId then (s, [], .ok noTabResp)
  else
    match env.captureVisibleTab with
    | .error m => (s, [.captureVisibleTab], .error m)
    | .ok dataUrl =>
      (s, [.captureVisibleTab],
       .ok { success := true, data := some (.screenshot dataUrl) })

/-- The command kinds with a case in the `_handleCommand` switch. -/
def knownKinds : List String :=
  ["navigate", "getTabs", "selectTab", "click", "type", "snapshot", "screenshot"]

/-- The `try` body of `_handleCommand` (src/sidVoiceConnection.ts:213-230):
the switch over `command.type`, with the unknown-kind default case. -/
def dispatchCommand (env : Env) (s : SVState) (cmd : BrowserCommand) :
    SVState × List CEff × Except String BrowserResponse :=
  if cmd.type == "navigate" then navigateAct env s cmd.url
  else if cmd.type == "getTabs" then getTabsAct env s
  else if cmd.type == "selectTab" then selectTabAct env s cmd.tabId
  else if cmd.type == "click" then clickAct env s cmd.selector
  else if cmd.type == "type" then typeAct env s cmd.selector cmd.text
  else if cmd.type == "snapshot" then getSnapshotAct env s
  else if cmd.type == "screenshot" then getScreenshotAct env s
  else (s, [], .ok { success := false, error := some ("Unknown command: " ++ cmd.type) })

/-- `_handleCommand` (src/sidVoiceConnection.ts:211-235): the switch wrapped
in the catch that converts any thrown/rejected failure into
`{success:false, error:message}`. -/
def handleCommand (env : Env) (s : SVState) (cmd : BrowserCommand) :
    SVState × List CEff × BrowserResponse :=
  match dispatchCommand env s cmd with
  | (s1, effs, .ok resp) => (s1, effs, resp)
  | (s1, effs, .error m) => (s1, effs, { success := false, error := some m })

/-- Outbound frames sent through `_send`. -/
inductive Frame where
  | register (email : String)
  | response (r : BrowserResponse)
  | ping
  deriving Repr, DecidableEq

/-- Observable effects at the connection level; Chrome-side action effects
are wrapped by `Eff.chrome`. -/
inductive Eff where
  | chrome (c : CEff)
  | wsSend (f : Frame)
  | wsClose (code : Nat) (reason : String)
  | statusChange (connected : Bool) (email : Option String)
  | scheduleTimer (delayMs : Nat)
  | clearReconnectTimer
  deriving Repr, DecidableEq

/-- `_send` (src/sidVoiceConnection.ts:178-182): emit the frame only while
`readyState === WebSocket.OPEN`; otherwise do nothing. -/
def send (s : SVState) (f : Frame) : List Eff :=
  if s.ws == some WsReady.opened then [Eff.wsSend f] else []

/-- The keepalive tick (src/sidVoiceConnection.ts:164-168): send a ping
frame only while the transport reports the open state. -/
def pingTick (s : SVState) : List Eff :=
  if s.ws == some WsReady.opened then send s Frame.ping else []

/-- The backoff delay of `_scheduleReconnect`
(src/sidVoiceConnection.ts:147): `Math.min(Math.pow(2, attempts) * 1000,
30000)` milliseconds (1000 ms = one spec time-unit). -/
def backoffDelay (attempt : Nat) : Nat := min (2 ^ attempt * 1000) 30000

/-- `_scheduleReconnect` (src/sidVoiceConnection.ts:143-160): a no-op while
a reconnect timer is already armed; otherwise arm one timer with the
backoff delay and increment the attempt counter. -/
def scheduleReconnect (s : SVState) : SVState × List Eff :=
  if s.reconnectTimer then (s, [])
  else
    ({ s with reconnectAttempts := s.reconnectAttempts + 1, reconnectTimer := true },
     [Eff.scheduleTimer (backoffDelay s.reconnectAttempts)])

/-- `_stopPing` (src/sidVoiceConnection.ts:171-176). -/
def stopPing (s : SVState) : SVState := { s with pingTimer := false }

/-- `_startPing` (src/sidVoiceConnection.ts:162-169): stop any prior ping
timer, then arm the interval. -/
def startPing (s : SVState) : SVState := { stopPing s with pingTimer := true }

/-- The `onopen` handler (src/sidVoiceConnection.ts:82-97): the socket is
now open, the attempt counter resets to zero, the registration handshake is
sent, the keepalive starts, and observers are notified. -/
def onOpen (s : SVState) : SVState × List Eff :=
  let s1 := { s with ws := some WsReady.opened, reconnectAttempts := 0 }
  let regEffs := send s1 (Frame.register s1.email)
  let s2 := startPing s1
  (s2, regEffs ++ [Eff.statusChange true (some s2.email)])

/-- The `onclose` handler (src/sidVoiceConnection.ts:118-127): stop the
keepalive, notify observers, and schedule a reconnect only when the closure
code is not 1000 and an email is still configured. -/
def onClose (s : SVState) (code : Nat) : SVState × List Eff :=
  let s1 := stopPing { s with ws := some WsReady.closed }
  let effs := [Eff.statusChange false none]
  if code != 1000 && !s1.email.isEmpty then
    let r := scheduleReconnect s1
    (r.1, effs ++ r.2)
  else (s1, effs)

/-- `_cleanup` (src/sidVoiceConnection.ts:199-209): remove the registered
event listener if any, detach from a truthy debuggee (fire-and-forget), and
clear the connected tab. -/
def cleanup (s : SVState) : SVState × List CEff :=
  let r1 : SVState × List CEff :=
    if s.eventListener then
      ({ s with eventListener := false }, [CEff.removeOnEventListener])
    else (s, [])
  let r2 : SVState × List CEff :=
    if truthyNat r1.1.debuggeeTabId then
      ({ r1.1 with debuggeeTabId := none },
       [CEff.debuggerDetach (r1.1.debuggeeTabId.getD 0)])
    else (r1.1, [])
  ({ r2.1 with connectedTabId := none }, r1.2 ++ r2.2)

/-- `disconnect` (src/sidVoiceConnection.ts:184-197): clear a pending
reconnect timer, stop the keepalive, close the socket with the
normal-closure code 1000, run `_cleanup`, and notify observers. -/
def disconnectAct (s : SVState) : SVState × List Eff :=
  let r1 : SVState × List Eff :=
    if s.reconnectTimer then
      ({ s with reconnectTimer := false }, [Eff.clearReconnectTimer])
    else (s, [])
  let s2 := stopPing r1.1
  let r3 : SVState × List Eff :=
    match s2.ws with
    | some _ => ({ s2 with ws := none }, [Eff.wsClose 1000 "User disconnected"])
    | none => (s2, [])
  let r4 := cleanup r3.1
  (r4.1, r1.2 ++ r3.2 ++ r4.2.map Eff.chrome ++ [Eff.statusChange false none])

/-- Parsed inbound frames as classified by the `onmessage` handler; a
`malformed` frame models a JSON.parse failure, which is caught and logged. -/
inductive InFrame where
  | command (c : BrowserCommand)
  | pong
  | registered
  | malformed
  deriving Repr, DecidableEq

/-- The `onmessage` handler (src/sidVoiceConnection.ts:99-116): a command
frame is dispatched, the correlation id is stamped onto the response, and
the response is passed to `_send`; pong/registered/malformed frames have no
effect. -/
def onMessage (env : Env) (s : SVState) (f : InFrame) : SVState × List Eff :=
  match f with
  | .command c =>
    let r := handleCommand env s c
    let resp1 := { r.2.2 with id := c.id }
    (r.1, r.2.1.map Eff.chrome ++ send r.1 (Frame.response resp1))
  | .pong => (s, [])
  | .registered => (s, [])
  | .malformed => (s, [])

/-- The controller operations of the session layer, for stating
reachability properties over operation sequences. -/
inductive Op where
  | navigate (url : Option String)
  | getTabs
  | selectTab (tabId : Option Nat)
  | click (selector : Option String)
  | typeText (selector text : Option String)
  | snapshot
  | screenshot
  | ensureAttached
  | teardown
  deriving Repr, DecidableEq

/-- One controller operation as a state transition with its Chrome effects. -/
def runOp (env : Env) (s : SVState) : Op → SVState × List CEff
  | .navigate u => let r := navigateAct env s u; (r.1, r.2.1)
  | .getTabs => let r := getTabsAct env s; (r.1, r.2.1)
  | .selectTab t => let r := selectTabAct env s t; (r.1, r.2.1)
  | .click sel => let r := clickAct env s sel; (r.1, r.2.1)
  | .typeText sel t => let r := typeAct env s sel t; (r.1, r.2.1)
  | .snapshot => let r := getSnapshotAct env s; (r.1, r.2.1)
  | .screenshot => let r := getScreenshotAct env s; (r.1, r.2.1)
  | .ensureAttached => let r := ensureDebuggerAttached env s; (r.1, r.2.1)
  | .teardown => cleanup s

/-- Run a sequence of controller operations, accumulating Chrome effects. -/
def runOps (env : Env) (s : SVState) : List Op → SVState × List CEff
  | [] => (s, [])
  | op :: rest =>
    let r := runOp env s op
    let rr := runOps env r.1 rest
    (rr.1, r.2 ++ rr.2)

/-- One `_pendingTabSelection` entry (src/unnamed background script, line
45): the relay connection (identified by a number here) and whether its
inactivity timer is armed (`timerId` set). -/
structure PendingEntry where
  connId : Nat
  timer : Bool := false
  deriving Repr, DecidableEq

/-- The pending-selection map, as an insertion-ordered association list
(JavaScript `Map` iteration order); keys are selector tab ids and are
unique. -/
structure TSState where
  pending : List (Nat × PendingEntry) := []
  deriving Repr, DecidableEq

/-- Observable effects of the pending-selection tracker. -/
inductive TEff where
  | clearTimeout (tabId : Nat)
  | setTimeout (tabId : Nat) (ms : Nat)
  | closeConn (conn : Nat) (reason : String)
  | notifyTimeout (tabId : Nat)
  deriving Repr, DecidableEq

/-- The loop body of `_onTabActivated` (background script lines 259-279),
iterating the map in insertion order: a foreground entry has its armed
timer cleared and the loop continues; a non-foreground entry without a
timer gets a 5000 ms timer armed and the handler RETURNS (the remaining
entries are not visited); a non-foreground entry with a timer is skipped. -/
def activateLoop (activeTabId : Nat) :
    List (Nat × PendingEntry) → List (Nat × PendingEntry) × List TEff
  | [] => ([], [])
  | (tabId, pending) :: rest =>
    if tabId = activeTabId then
      let r := activateLoop activeTabId rest
      if pending.timer then
        ((tabId, { pending with timer := false }) :: r.1,
         TEff.clearTimeout tabId :: r.2)
      else
        ((tabId, pending) :: r.1, r.2)
    else if !pending.timer then
      ((tabId, { pending with timer := true }) :: rest,
       [TEff.setTimeout tabId 5000])
    else
      let r := activateLoop activeTabId rest
      ((tabId, pending) :: r.1, r.2)

/-- `_onTabActivated` (background script lines 259-279). -/
def onTabActivated (s : TSState) (activeTabId : Nat) : TSState × List TEff :=
  let r := activateLoop activeTabId s.pending
  ({ pending := r.1 }, r.2)

/-- The reason string passed to `connection.close` on inactivity eviction
(background script line 272). -/
def inactivityReason : String := "Tab has been inactive for 5 seconds"

/-- The body of the eviction timer armed by `_onTabActivated` (background
script lines 269-275): `delete` the entry and, only if it still existed,
close the captured connection and notify the tab of the timeout. -/
def timerCallback (s : TSState) (tabId : Nat) (conn : Nat) : TSState × List TEff :=
  let existed := (s.pending.lookup tabId).isSome
  let s1 : TSState := { pending := s.pending.filter (fun p => !(p.1 == tabId)) }
  if existed then
    (s1, [TEff.closeConn conn inactivityReason, TEff.notifyTimeout tabId])
  else
    (s1, [])

/-- A tab resolving successfully with window 1 (used by concrete runs). -/
def tabOk (n : Nat) : Tab :=
  { id := some n, windowId := 1, url := some "https://example.com", active := true }

/-- A concrete all-succeeding Chrome environment for concrete runs:
`tabsGet` resolves every defined id, `tabsCreate` returns tab 1, every
other call resolves trivially. -/
def env0 : Env where
  tabsGet := fun t =>
    match t with
    | some n => .ok (some (tabOk n))
    | none => .error "No tab with the given id"
  tabsUpdate := fun _ _ => .ok ()
  tabsCreate := fun _ => .ok 1
  windowsUpdate := fun _ => .ok ()
  tabsQuery := .ok [tabOk 1]
  debuggerAttach := fun _ => .ok ()
  debuggerDetach := fun _ => .ok ()
  runtimeEvaluate := fun _ _ => .ok ()
  getAXTree := fun _ => .ok [0]
  captureVisibleTab := .ok "data:image/png;base64,AAAA"

/-- Concrete trace for the binding/attach divergence: create-and-bind tab 1,
attach via click, then rebind to tab 2 without any further action. -/
def divergeOps : List Op :=
  [Op.navigate (some "https://a.example"), Op.click (some "#btn"),
   Op.selectTab (some 2)]

/-- Concrete trace registering the event listener twice in one controller
lifetime: attach, teardown (which removes the listener), attach again. -/
def relistenOps : List Op :=
  [Op.navigate (some "https://a.example"), Op.click (some "#btn"),
   Op.teardown,
   Op.navigate (some "https://a.example"), Op.click (some "#btn")]


/-- Is a tracker effect a `setTimeout`? -/
def isSetTimeout : TEff → Bool
  | .setTimeout _ _ => true
  | _ => false

/-- Two pending entries, neither with an armed timer. -/
def twoPending : TSState :=
  { pending := [(1, { connId := 10 }), (2, { connId := 20 })] }

/-- Expected result of activating tab 3 on `twoPending`: only the first
entry gets a timer, the second is left untouched by the early return. -/
def twoPendingAfter : TSState :=
  { pending := [(1, { connId := 10, timer := true }), (2, { connId := 20 })] }

/-- A single tracked entry with its timer armed. -/
def onePendingArmed : TSState :=
  { pending := [(1, { connId := 10, timer := true })] }

/-- The same entry after its tab became foreground: timer cleared but the
entry still tracked. -/
def onePendingClear : TSState :=
  { pending := [(1, { connId := 10, timer := false })] }

/-- A state with the deliverable socket open and credentials configured,
with a reconnect timer and an attached, listened-to debuggee (used by the
disconnect witness). -/
def sLive : SVState :=
  { ws := some WsReady.opened, email := "user@example.com",
    connectedTabId := some 1, debuggeeTabId := some 1,
    eventListener := true, reconnectAttempts := 2,
    reconnectTimer := true, pingTimer := true }

/-- The unknown-kind command of the spec's `frobnicate` test. -/
def frobCmd : BrowserCommand := { type := "frobnicate" }

/-- A three-operation teardown-free trace for the listener witness. -/
def attachTwiceOps : List Op :=
  [Op.navigate (some "https://a.example"), Op.click (some "#btn"),
   Op.click (some "#btn")]

/-- A state with tab 1 bound and nothing attached yet. -/
def sBind1 : SVState := { SVState.init with connectedTabId := some 1 }

/-- The state after a successful attach from `sBind1`. -/
def sBound1Attached : SVState :=
  { sBind1 with debuggeeTabId := some 1, eventListener := true }

/-- The response discriminant of a dispatch result: produced responses
carry `type = "response"`; failures are converted later and count as ok. -/
def respOk : Except String BrowserResponse → Bool
  | .ok r => r.type == "response"
  | .error _ => true

/-- Claim C1.  The spec requires `type`'s escaping to round-trip every text
payload, and the code is the slip: the escape touches only single quotes,
so the spec's own example `it's a test` round-trips, but a payload that is
a lone backslash is passed through unescaped, the generated `el.value =
'\'` literal swallows its closing quote, and parsing the spliced literal
back fails — the payload breaks out of the string literal. -/
theorem C1_typeEscape_roundtrip_fails_on_backslash :
    spliceParse itsATest [] = some (itsATest.data, []) ∧
    escapeTypeText (String.singleton backslashC) = String.singleton backslashC ∧
    spliceParse (String.singleton backslashC) [] = none := by
  decide

/-- Claim C3.  The reconnect delay for attempt `n` is
`min (2^n * 1000 ms, 30000 ms)`, so the delay sequence is exactly
1, 2, 4, 8, 16, 30, 30, 30, ... time-units; the attempt counter resets to
zero on every successful open and increments by one on every scheduled
reconnect after an unexpected closure. -/
theorem C3_backoff :
    ((List.range 8).map backoffDelay)
      = [1000, 2000, 4000, 8000, 16000, 30000, 30000, 30000] ∧
    (∀ n, 5 ≤ n → backoffDelay n = 30000) ∧
    (∀ s : SVState, (onOpen s).1.reconnectAttempts = 0) ∧
    (∀ s : SVState, s.reconnectTimer = false →
      scheduleReconnect s
        = ({ s with reconnectAttempts := s.reconnectAttempts + 1,
                    reconnectTimer := true },
           [Eff.scheduleTimer (min (2 ^ s.reconnectAttempts * 1000) 30000)])) ∧
    (∀ (s : SVState) (code : Nat), code ≠ 1000 → s.email.isEmpty = false →
      s.reconnectTimer = false →
      (onClose s code).1.reconnectAttempts = s.reconnectAttempts + 1) := by
  refine ⟨by decide, ?_, ?_, ?_, ?_⟩
  · intro n hn
    have h32 : (30000 : Nat) ≤ 2 ^ n * 1000 := by
      calc (30000 : Nat) ≤ 2 ^ 5 * 1000 := by norm_num
        _ ≤ 2 ^ n * 1000 :=
          Nat.mul_le_mul_right 1000 (Nat.pow_le_pow_right (by norm_num) hn)
    simp [backoffDelay, Nat.min_eq_right h32]
  · intro s; rfl
  · intro s hs
    simp [scheduleReconnect, backoffDelay, hs]
  · intro s code hc he hs
    simp [onClose, stopPing, scheduleReconnect, hc, he, hs]

/-- Witness for C3 at attempt 5: the delay caps at 30 time-units and the
counter goes from 5 to 6. -/
theorem C3_backoff_witness :
    scheduleReconnect { SVState.init with reconnectAttempts := 5 }
      = ({ SVState.init with reconnectAttempts := 6, reconnectTimer := true },
         [Eff.scheduleTimer 30000]) := by
  have h := C3_backoff.2.2.2.1 { SVState.init with reconnectAttempts := 5 } rfl
  exact h.trans (by decide)

/-- Claim C7.  `selectTarget(id)` fails with the `Tab not found` error and
leaves the binding unchanged when `id` does not resolve to an open target
(both the falsy-resolution and rejected-lookup paths); otherwise it rebinds
`activeTargetId` to `id`, activates the tab, focuses its window, and
returns the id in a success response. -/
theorem C7_selectTarget (env : Env) (s : SVState) (id : Nat) :
    (env.tabsGet (some id) = .ok none →
      selectTabAct env s (some id)
        = (s, [CEff.tabsGet (some id)],
           .ok { success := false, error := some "Tab not found" })) ∧
    (∀ m, env.tabsGet (some id) = .error m →
      selectTabAct env s (some id) = (s, [CEff.tabsGet (some id)], .error m)) ∧
    (∀ tab, env.tabsGet (some id) = .ok (some tab) →
      env.tabsUpdate (some id) none = .ok () →
      tab.windowId ≠ 0 →
      env.windowsUpdate tab.windowId = .ok () →
      selectTabAct env s (some id)
        = ({ s with connectedTabId := some id },
           [CEff.tabsGet (some id), CEff.tabsUpdate (some id) none,
            CEff.windowsUpdateFocused tab.windowId],
           .ok { success := true, data := some (.tabId (some id)) })) := by
  refine ⟨?_, ?_, ?_⟩
  · intro h; simp [selectTabAct, h]
  · intro m h; simp [selectTabAct, h]
  · intro tab h1 h2 h3 h4
    simp [selectTabAct, h1, h2, h3, h4]

/-- Witness for C7: selecting tab 2 in the concrete environment rebinds to
it, activates it, focuses window 1, and returns 2. -/
theorem C7_selectTarget_witness :
    selectTabAct env0 SVState.init (some 2)
      = ({ SVState.init with connectedTabId := some 2 },
         [CEff.tabsGet (some 2), CEff.tabsUpdate (some 2) none,
          CEff.windowsUpdateFocused 1],
         .ok { success := true, data := some (.tabId (some 2)) }) := by
  have h := (C7_selectTarget env0 SVState.init 2).2.2 (tabOk 2) rfl rfl
    (by decide) rfl
  exact h.trans (by rfl)

/-- Claim C8.  With no target bound (`_connectedTabId` absent), each of
click, type, snapshot and screenshot returns the `No tab connected`
failure response, performs no Chrome call at all (no attach, no
navigation) and leaves the state unchanged. -/
theorem C8_no_target_bound (env : Env) (s : SVState) (sel txt : Option String)
    (h : s.connectedTabId = none) :
    clickAct env s sel = (s, [], .ok noTabResp) ∧
    typeAct env s sel txt = (s, [], .ok noTabResp) ∧
    getSnapshotAct env s = (s, [], .ok noTabResp) ∧
    getScreenshotAct env s = (s, [], .ok noTabResp) := by
  refine ⟨?_, ?_, ?_, ?_⟩ <;>
    simp [clickAct, typeAct, getSnapshotAct, getScreenshotAct, truthyNat, h]

/-- Witness for C8: in the initial (unbound) state the click action is the
pure `No tab connected` failure. -/
theorem C8_no_target_bound_witness :
    clickAct env0 SVState.init (some "#btn")
      = (SVState.init, [], .ok noTabResp) := by
  exact (C8_no_target_bound env0 SVState.init (some "#btn") (some "x") rfl).1

lemma ensure_ws (env : Env) (s : SVState) :
    (ensureDebuggerAttached env s).1.ws = s.ws := by
  unfold ensureDebuggerAttached
  (try dsimp only)
  (repeat' split) <;> rfl

lemma navigateAct_ws (env : Env) (s : SVState) (u : Option String) :
    (navigateAct env s u).1.ws = s.ws := by
  unfold navigateAct; (try dsimp only); (repeat' split) <;> rfl

lemma getTabsAct_ws (env : Env) (s : SVState) :
    (getTabsAct env s).1.ws = s.ws := by
  unfold getTabsAct; (try dsimp only); (repeat' split) <;> rfl

lemma selectTabAct_ws (env : Env) (s : SVState) (t : Option Nat) :
    (selectTabAct env s t).1.ws = s.ws := by
  unfold selectTabAct; (try dsimp only); (repeat' split) <;> rfl

lemma getScreenshotAct_ws (env : Env) (s : SVState) :
    (getScreenshotAct env s).1.ws = s.ws := by
  unfold getScreenshotAct; (repeat' split) <;> rfl

lemma clickAct_ws (env : Env) (s : SVState) (sel : Option String) :
    (clickAct env s sel).1.ws = s.ws := by
  unfold clickAct
  (try dsimp only)
  rcases h : ensureDebuggerAttached env s with ⟨s1, e1, r⟩
  have hws : s1.ws = s.ws := by
    have h2 := ensure_ws env s; rw [h] at h2; exact h2
  split
  · rfl
  · cases r
    · exact hws
    · dsimp only
      split <;> exact hws

lemma typeAct_ws (env : Env) (s : SVState) (sel txt : Option String) :
    (typeAct env s sel txt).1.ws = s.ws := by
  unfold typeAct
  (try dsimp only)
  rcases h : ensureDebuggerAttached env s with ⟨s1, e1, r⟩
  have hws : s1.ws = s.ws := by
    have h2 := ensure_ws env s; rw [h] at h2; exact h2
  split
  · rfl
  · cases r
    · exact hws
    · cases txt
      · exact hws
      · dsimp only
        split <;> exact hws

lemma getSnapshotAct_ws (env : Env) (s : SVState) :
    (getSnapshotAct env s).1.ws = s.ws := by
  unfold getSnapshotAct
  (try dsimp only)
  rcases h : ensureDebuggerAttached env s with ⟨s1, e1, r⟩
  have hws : s1.ws = s.ws := by
    have h2 := ensure_ws env s; rw [h] at h2; exact h2
  split
  · rfl
  · cases r
    · exact hws
    · dsimp only
      split <;> exact hws

lemma dispatch_ws (env : Env) (s : SVState) (cmd : BrowserCommand) :
    (dispatchCommand env s cmd).1.ws = s.ws := by
  unfold dispatchCommand
  repeat' split
  · exact navigateAct_ws env s cmd.url
  · exact getTabsAct_ws env s
  · exact selectTabAct_ws env s cmd.tabId
  · exact clickAct_ws env s cmd.selector
  · exact typeAct_ws env s cmd.selector cmd.text
  · exact getSnapshotAct_ws env s
  · exact getScreenshotAct_ws env s
  · rfl

lemma handleCommand_ws (env : Env) (s : SVState) (cmd : BrowserCommand) :
    (handleCommand env s cmd).1.ws = s.ws := by
  unfold handleCommand
  rcases hd : dispatchCommand env s cmd with ⟨s1, e, r⟩
  have hws : s1.ws = s.ws := by
    have h2 := dispatch_ws env s cmd; rw [hd] at h2; exact h2
  cases r <;> exact hws

lemma navigateAct_respOk (env : Env) (s : SVState) (u : Option String) :
    respOk (navigateAct env s u).2.2 = true := by
  unfold navigateAct; (try dsimp only); (repeat' split) <;> rfl

lemma getTabsAct_respOk (env : Env) (s : SVState) :
    respOk (getTabsAct env s).2.2 = true := by
  unfold getTabsAct; (try dsimp only); (repeat' split) <;> rfl

lemma selectTabAct_respOk (env : Env) (s : SVState) (t : Option Nat) :
    respOk (selectTabAct env s t).2.2 = true := by
  unfold selectTabAct; (try dsimp only); (repeat' split) <;> rfl

lemma getScreenshotAct_respOk (env : Env) (s : SVState) :
    respOk (getScreenshotAct env s).2.2 = true := by
  unfold getScreenshotAct; (repeat' split) <;> rfl

lemma clickAct_respOk (env : Env) (s : SVState) (sel : Option String) :
    respOk (clickAct env s sel).2.2 = true := by
  unfold clickAct; (try dsimp only); (repeat' split) <;> rfl

lemma typeAct_respOk (env : Env) (s : SVState) (sel txt : Option String) :
    respOk (typeAct env s sel txt).2.2 = true := by
  unfold typeAct; (try dsimp only); (repeat' split) <;> rfl

lemma getSnapshotAct_respOk (env : Env) (s : SVState) :
    respOk (getSnapshotAct env s).2.2 = true := by
  unfold getSnapshotAct; (try dsimp only); (repeat' split) <;> rfl

lemma dispatch_respOk (env : Env) (s : SVState) (cmd : BrowserCommand) :
    respOk (dispatchCommand env s cmd).2.2 = true := by
  unfold dispatchCommand
  repeat' split
  · exact navigateAct_respOk env s cmd.url
  · exact getTabsAct_respOk env s
  · exact selectTabAct_respOk env s cmd.tabId
  · exact clickAct_respOk env s cmd.selector
  · exact typeAct_respOk env s cmd.selector cmd.text
  · exact getSnapshotAct_respOk env s
  · exact getScreenshotAct_respOk env s
  · rfl

lemma handleCommand_type (env : Env) (s : SVState) (cmd : BrowserCommand) :
    (handleCommand env s cmd).2.2.type = "response" := by
  unfold handleCommand
  rcases hd : dispatchCommand env s cmd with ⟨s1, e, r⟩
  have hok := dispatch_respOk env s cmd
  rw [hd] at hok
  cases r with
  | ok resp =>
    simp only [respOk] at hok
    simpa using hok
  | error m => rfl

/-- Claim C2.  For every command envelope — including unknown kinds and
malformed parameters — `_handleCommand` returns a well-formed
`BrowserResponse` (discriminant `"response"`); every failure raised by the
invoked action is converted into `{success:false, error:message}`; an
unknown kind yields `{success:false, error:"Unknown command: <kind>"}`. -/
theorem C2_dispatcher_total (env : Env) (s : SVState) (cmd : BrowserCommand) :
    (handleCommand env s cmd).2.2.type = "response" ∧
    (∀ s1 e m, dispatchCommand env s cmd = (s1, e, .error m) →
      handleCommand env s cmd
        = (s1, e, { success := false, error := some m })) ∧
    (cmd.type ∉ knownKinds →
      handleCommand env s cmd
        = (s, [], { success := false,
                    error := some ("Unknown command: " ++ cmd.type) })) := by
  refine ⟨handleCommand_type env s cmd, ?_, ?_⟩
  · intro s1 e m h
    unfold handleCommand
    rw [h]
  · intro h
    simp only [knownKinds, List.mem_cons, List.not_mem_nil, or_false] at h
    push_neg at h
    obtain ⟨h1, h2, h3, h4, h5, h6, h7⟩ := h
    unfold handleCommand dispatchCommand
    simp [h1, h2, h3, h4, h5, h6, h7]

/-- Witness for C2: the unknown kind `frobnicate` yields exactly the
`Unknown command: frobnicate` failure response, with no state change and
no Chrome effect. -/
theorem C2_dispatcher_total_witness :
    handleCommand env0 SVState.init frobCmd
      = (SVState.init, [],
         { success := false, error := some "Unknown command: frobnicate" }) := by
  have h := (C2_dispatcher_total env0 SVState.init frobCmd).2.2 (by decide)
  exact h.trans (by decide)

/-- Claim C10 (implicit).  Whenever the transport is not in the open state,
`_send` emits nothing — for any frame, including pings and the
registration handshake — and a command processed in such a state produces
no response frame at all: the reply is silently dropped rather than
queued. -/
theorem C10_send_requires_open (env : Env) (s : SVState) (f : Frame)
    (c : BrowserCommand) (h : s.ws ≠ some WsReady.opened) :
    send s f = [] ∧
    pingTick s = [] ∧
    (∀ fr, Eff.wsSend fr ∉ (onMessage env s (InFrame.command c)).2) := by
  have hsend : ∀ s' : SVState, s'.ws = s.ws → ∀ g, send s' g = [] := by
    intro s' hs g
    simp [send, hs, h]
  refine ⟨hsend s rfl f, ?_, ?_⟩
  · simp [pingTick, h]
  · intro fr
    have hws := handleCommand_ws env s c
    have h0 := hsend (handleCommand env s c).1 hws
      (Frame.response { (handleCommand env s c).2.2 with id := c.id })
    simp [onMessage, h0]

/-- Witness for C10: in the initial state (no socket), a ping is dropped
and the response to a dispatched command is never sent. -/
theorem C10_send_requires_open_witness :
    send SVState.init Frame.ping = [] ∧
    Eff.wsSend Frame.ping ∉ (onMessage env0 SVState.init (InFrame.command frobCmd)).2 := by
  have h := C10_send_requires_open env0 SVState.init Frame.ping frobCmd (by decide)
  exact ⟨h.1, h.2.2 Frame.ping⟩

lemma truthyNat_none : truthyNat none = false := rfl

lemma disconnect_fields (s : SVState) :
    (disconnectAct s).1.ws = none ∧
    (disconnectAct s).1.reconnectTimer = false ∧
    (disconnectAct s).1.pingTimer = false ∧
    (disconnectAct s).1.eventListener = false ∧
    (disconnectAct s).1.connectedTabId = none ∧
    truthyNat (disconnectAct s).1.debuggeeTabId = false ∧
    (disconnectAct s).1.email = s.email := by
  cases hrt : s.reconnectTimer <;> cases hws : s.ws <;>
    cases hel : s.eventListener <;> cases hdb : truthyNat s.debuggeeTabId <;>
    simp [disconnectAct, cleanup, stopPing, hrt, hws, hel, hdb, truthyNat_none]

lemma disconnect_stable (s : SVState) (h1 : s.reconnectTimer = false)
    (h2 : s.ws = none) (h3 : s.eventListener = false)
    (h4 : truthyNat s.debuggeeTabId = false) (h5 : s.connectedTabId = none)
    (h6 : s.pingTimer = false) :
    disconnectAct s = (s, [Eff.statusChange false none]) := by
  obtain ⟨ws, email, ct, db, el, ra, rt, pt⟩ := s
  dsimp only at h1 h2 h3 h4 h5 h6
  subst h1 h2 h3 h5 h6
  simp [disconnectAct, cleanup, stopPing, h4]

/-- Claim C9.  `disconnect()` cancels any pending reconnect timer and the
keepalive, closes the transport with normal-closure code 1000, and tears
down any attached session (listener removed, debuggee detached, binding
cleared); the closure event it causes carries code 1000, which schedules
no reconnect; and a second `disconnect()` leaves the state fixed and
performs no further timer/transport/teardown effect. -/
theorem C9_disconnect_idempotent (s : SVState) :
    ((disconnectAct s).1.ws = none ∧
     (disconnectAct s).1.reconnectTimer = false ∧
     (disconnectAct s).1.pingTimer = false ∧
     (disconnectAct s).1.eventListener = false ∧
     (disconnectAct s).1.connectedTabId = none ∧
     truthyNat (disconnectAct s).1.debuggeeTabId = false) ∧
    (∀ w, s.ws = some w →
      Eff.wsClose 1000 "User disconnected" ∈ (disconnectAct s).2) ∧
    (s.reconnectTimer = true → Eff.clearReconnectTimer ∈ (disconnectAct s).2) ∧
    (onClose (disconnectAct s).1 1000).1.reconnectTimer = false ∧
    (∀ d, Eff.scheduleTimer d ∉ (onClose (disconnectAct s).1 1000).2) ∧
    disconnectAct (disconnectAct s).1
      = ((disconnectAct s).1, [Eff.statusChange false none]) := by
  obtain ⟨f1, f2, f3, f4, f5, f6, f7⟩ := disconnect_fields s
  refine ⟨⟨f1, f2, f3, f4, f5, f6⟩, ?_, ?_, ?_, ?_, ?_⟩
  · intro w hw
    cases hrt : s.reconnectTimer <;>
      simp [disconnectAct, cleanup, stopPing, hrt, hw]
  · intro hrt
    cases hws : s.ws <;>
      simp [disconnectAct, cleanup, stopPing, hrt, hws]
  · simp [onClose, stopPing, f2]
  · intro d; simp [onClose, stopPing]
  · exact disconnect_stable _ f2 f1 f4 f6 f5 f3

/-- Witness for C9 from a live connected state with a pending reconnect
timer: the close frame and the timer cancellation both happen, and a
second disconnect is a pure repeat of the final notification. -/
theorem C9_disconnect_idempotent_witness :
    Eff.wsClose 1000 "User disconnected" ∈ (disconnectAct sLive).2 ∧
    Eff.clearReconnectTimer ∈ (disconnectAct sLive).2 ∧
    disconnectAct (disconnectAct sLive).1
      = ((disconnectAct sLive).1, [Eff.statusChange false none]) := by
  have h := C9_disconnect_idempotent sLive
  exact ⟨h.2.1 WsReady.opened rfl, h.2.2.1 rfl, h.2.2.2.2.2⟩

lemma ensure_ok_fields {env : Env} {s s1 : SVState} {e : List CEff}
    (h : ensureDebuggerAttached env s = (s1, e, Except.ok ())) :
    s1.debuggeeTabId = s1.connectedTabId ∧
    truthyNat s1.connectedTabId = true ∧
    s1.connectedTabId = s.connectedTabId := by
  unfold ensureDebuggerAttached at h
  split at h
  case isTrue hguard => simp at h
  case isFalse hguard =>
    split at h
    case isTrue hbeq =>
      simp only [Prod.mk.injEq] at h
      obtain ⟨rfl, -, -⟩ := h
      exact ⟨by simpa using hbeq, by simpa using hguard, rfl⟩
    case isFalse hbeq =>
      dsimp only at h
      split at h
      case h_1 => simp at h
      case h_2 =>
        split at h
        case isTrue hl =>
          simp only [Prod.mk.injEq] at h
          obtain ⟨hs, -, -⟩ := h
          subst hs
          exact ⟨rfl, by simpa using hguard, rfl⟩
        case isFalse hl =>
          simp only [Prod.mk.injEq] at h
          obtain ⟨hs, -, -⟩ := h
          subst hs
          exact ⟨rfl, by simpa using hguard, rfl⟩

lemma ensure_idem {env : Env} {s s1 : SVState} {e : List CEff}
    (h : ensureDebuggerAttached env s = (s1, e, Except.ok ())) :
    ensureDebuggerAttached env s1 = (s1, [], Except.ok ()) := by
  obtain ⟨hdb, htr, -⟩ := ensure_ok_fields h
  simp [ensureDebuggerAttached, htr, hdb]

lemma ensure_listener (env : Env) (s : SVState) :
    (s.eventListener = true →
      (ensureDebuggerAttached env s).1.eventListener = true ∧
      (ensureDebuggerAttached env s).2.1.count CEff.addOnEventListener = 0) ∧
    (s.eventListener = false →
      ((ensureDebuggerAttached env s).1.eventListener = false ∧
        (ensureDebuggerAttached env s).2.1.count CEff.addOnEventListener = 0) ∨
      ((ensureDebuggerAttached env s).1.eventListener = true ∧
        (ensureDebuggerAttached env s).2.1.count CEff.addOnEventListener = 1)) := by
  unfold ensureDebuggerAttached
  (try dsimp only)
  (repeat' split) <;>
    (constructor <;> intro hel <;>
      simp_all [List.count_append, List.count_cons, List.count_nil])

lemma runOp_listener (env : Env) (s : SVState) (op : Op)
    (hop : op ≠ Op.teardown) :
    (s.eventListener = true →
      (runOp env s op).1.eventListener = true ∧
      (runOp env s op).2.count CEff.addOnEventListener = 0) ∧
    (s.eventListener = false →
      ((runOp env s op).1.eventListener = false ∧
        (runOp env s op).2.count CEff.addOnEventListener = 0) ∨
      ((runOp env s op).1.eventListener = true ∧
        (runOp env s op).2.count CEff.addOnEventListener = 1)) := by
  cases op with
  | teardown => exact absurd rfl hop
  | navigate u =>
    dsimp only [runOp]
    unfold navigateAct
    (repeat' split) <;>
      (constructor <;> intro hel <;>
        simp_all [List.count_cons, List.count_nil])
  | getTabs =>
    dsimp only [runOp]
    unfold getTabsAct
    (repeat' split) <;>
      (constructor <;> intro hel <;>
        simp_all [List.count_cons, List.count_nil])
  | selectTab t =>
    dsimp only [runOp]
    unfold selectTabAct
    (try dsimp only)
    (repeat' split) <;>
      (constructor <;> intro hel <;>
        simp_all [List.count_cons, List.count_nil])
  | screenshot =>
    dsimp only [runOp]
    unfold getScreenshotAct
    (repeat' split) <;>
      (constructor <;> intro hel <;>
        simp_all [List.count_cons, List.count_nil])
  | ensureAttached =>
    dsimp only [runOp]
    exact ensure_listener env s
  | click sel =>
    dsimp only [runOp]
    unfold clickAct
    (try dsimp only)
    rcases h : ensureDebuggerAttached env s with ⟨s1, e1, r⟩
    have he := ensure_listener env s
    rw [h] at he
    dsimp only at he
    split
    · constructor <;> intro hel <;> simp_all
    · cases r with
      | error m => exact he
      | ok u =>
        dsimp only
        split
        all_goals
          constructor
          · intro hel
            obtain ⟨h1, h2⟩ := he.1 hel
            exact ⟨h1, by
              simp [List.count_append, List.count_cons, List.count_nil, h2]⟩
          · intro hel
            rcases he.2 hel with ⟨h1, h2⟩ | ⟨h1, h2⟩
            · exact Or.inl ⟨h1, by
                simp [List.count_append, List.count_cons, List.count_nil, h2]⟩
            · exact Or.inr ⟨h1, by
                simp [List.count_append, List.count_cons, List.count_nil, h2]⟩
  | typeText sel txt =>
    dsimp only [runOp]
    unfold typeAct
    (try dsimp only)
    rcases h : ensureDebuggerAttached env s with ⟨s1, e1, r⟩
    have he := ensure_listener env s
    rw [h] at he
    dsimp only at he
    split
    · constructor <;> intro hel <;> simp_all
    · cases r with
      | error m => exact he
      | ok u =>
        cases txt with
        | none => exact he
        | some t =>
          dsimp only
          split
          all_goals
            constructor
            · intro hel
              obtain ⟨h1, h2⟩ := he.1 hel
              exact ⟨h1, by
                simp [List.count_append, List.count_cons, List.count_nil, h2]⟩
            · intro hel
              rcases he.2 hel with ⟨h1, h2⟩ | ⟨h1, h2⟩
              · exact Or.inl ⟨h1, by
                  simp [List.count_append, List.count_cons, List.count_nil, h2]⟩
              · exact Or.inr ⟨h1, by
                  simp [List.count_append, List.count_cons, List.count_nil, h2]⟩
  | snapshot =>
    dsimp only [runOp]
    unfold getSnapshotAct
    (try dsimp only)
    rcases h : ensureDebuggerAttached env s with ⟨s1, e1, r⟩
    have he := ensure_listener env s
    rw [h] at he
    dsimp only at he
    split
    · constructor <;> intro hel <;> simp_all
    · cases r with
      | error m => exact he
      | ok u =>
        dsimp only
        split
        all_goals
          constructor
          · intro hel
            obtain ⟨h1, h2⟩ := he.1 hel
            exact ⟨h1, by
              simp [List.count_append, List.count_cons, List.count_nil, h2]⟩
          · intro hel
            rcases he.2 hel with ⟨h1, h2⟩ | ⟨h1, h2⟩
            · exact Or.inl ⟨h1, by
                simp [List.count_append, List.count_cons, List.count_nil, h2]⟩
            · exact Or.inr ⟨h1, by
                simp [List.count_append, List.count_cons, List.count_nil, h2]⟩

lemma runOps_listener_aux (env : Env) (ops : List Op)
    (hops : ∀ o ∈ ops, o ≠ Op.teardown) : ∀ s : SVState,
    (s.eventListener = true →
      (runOps env s ops).1.eventListener = true ∧
      (runOps env s ops).2.count CEff.addOnEventListener = 0) ∧
    (s.eventListener = false →
      (runOps env s ops).2.count CEff.addOnEventListener ≤ 1) := by
  induction ops with
  | nil =>
    intro s
    exact ⟨fun hel => ⟨hel, by simp [runOps]⟩, fun _ => by simp [runOps]⟩
  | cons op rest ih =>
    intro s
    have hop : op ≠ Op.teardown := hops op (List.mem_cons_self op rest)
    have hrest : ∀ o ∈ rest, o ≠ Op.teardown :=
      fun o ho => hops o (List.mem_cons_of_mem op ho)
    have hstep := runOp_listener env s op hop
    have ihs := (fun hr => ih hr (runOp env s op).1) hrest
    constructor
    · intro hel
      obtain ⟨h1, h2⟩ := hstep.1 hel
      obtain ⟨h3, h4⟩ := ihs.1 h1
      refine ⟨by simpa [runOps] using h3, ?_⟩
      simp [runOps, List.count_append, h2, h4]
    · intro hel
      rcases hstep.2 hel with ⟨h1, h2⟩ | ⟨h1, h2⟩
      · have h5 := ihs.2 h1
        have : (runOps env s (op :: rest)).2.count CEff.addOnEventListener
            = (runOps env (runOp env s op).1 rest).2.count CEff.addOnEventListener := by
          simp [runOps, List.count_append, h2]
        omega
      · obtain ⟨h3, h4⟩ := ihs.1 h1
        simp [runOps, List.count_append, h2, h4]

/-- Claim C4 counterexample.  After create-and-bind tab 1, click (which
attaches to tab 1), then `selectTab 2`, the reachable state has the attach
session still on target 1 while the binding points at target 2 — the
claimed invariant fails on this concrete reachable state. -/
theorem C4_invariant_counterexample :
    (runOps env0 SVState.init divergeOps).1.debuggeeTabId = some 1 ∧
    (runOps env0 SVState.init divergeOps).1.connectedTabId = some 2 := by
  exact ⟨rfl, rfl⟩

/-- Claim C4 (amended).  The attached target equals the bound target at
every successful completion of `ensureAttached` (hence immediately after
every attach-ensuring operation); `selectTarget` alone may leave the
previously attached target in place until the next such operation. -/
theorem C4_invariant_amended (env : Env) (s s1 : SVState) (e : List CEff)
    (h : ensureDebuggerAttached env s = (s1, e, Except.ok ())) :
    s1.debuggeeTabId = s1.connectedTabId := by
  exact (ensure_ok_fields h).1

/-- Witness for amended C4: a concrete successful attach to tab 1 leaves
debuggee and binding equal. -/
theorem C4_invariant_amended_witness :
    (ensureDebuggerAttached env0 sBind1).1.debuggeeTabId
      = (ensureDebuggerAttached env0 sBind1).1.connectedTabId := by
  have h : ensureDebuggerAttached env0 sBind1
      = (sBound1Attached,
         [CEff.debuggerAttach 1, CEff.addOnEventListener], Except.ok ()) := by
    rfl
  rw [h]
  exact C4_invariant_amended env0 _ _ _ h

/-- Claim C5 counterexample.  One controller lifetime containing a
teardown between two attach cycles registers the event listener twice:
`_cleanup` nulls `_eventListener`, so the next attach registers again. -/
theorem C5_single_listener_counterexample :
    (runOps env0 SVState.init relistenOps).2.count CEff.addOnEventListener
      = 2 := by
  rfl

/-- Claim C5 (amended).  `ensureAttached` is idempotent — after a
successful call, an immediate second call for the same bound target is a
complete no-op (no attach, no detach, no registration) — and over any
teardown-free operation sequence from a fresh controller at most one
listener registration ever occurs; a teardown removes the listener and a
later attach registers a fresh one. -/
theorem C5_ensureAttached_amended :
    (∀ (env : Env) (s s1 : SVState) (e : List CEff),
      ensureDebuggerAttached env s = (s1, e, Except.ok ()) →
      ensureDebuggerAttached env s1 = (s1, [], Except.ok ())) ∧
    (∀ (env : Env) (ops : List Op), (∀ o ∈ ops, o ≠ Op.teardown) →
      (runOps env SVState.init ops).2.count CEff.addOnEventListener ≤ 1) := by
  constructor
  · intro env s s1 e h
    exact ensure_idem h
  · intro env ops hops
    exact (runOps_listener_aux env ops hops SVState.init).2 rfl

/-- Witness for amended C5: a teardown-free trace with two clicks performs
at most one listener registration. -/
theorem C5_ensureAttached_amended_witness :
    (runOps env0 SVState.init attachTwiceOps).2.count CEff.addOnEventListener
      ≤ 1 := by
  exact C5_ensureAttached_amended.2 env0 attachTwiceOps (by decide)

lemma activateLoop_keys (a : Nat) :
    ∀ l : List (Nat × PendingEntry),
      (activateLoop a l).1.map Prod.fst = l.map Prod.fst := by
  intro l
  induction l with
  | nil => rfl
  | cons hd tl ih =>
    obtain ⟨t, e⟩ := hd
    simp only [activateLoop]
    split
    · split <;> simp [ih]
    · split
      · simp
      · simp [ih]

lemma activateLoop_no_close (a : Nat) :
    ∀ (l : List (Nat × PendingEntry)) (c : Nat) (r : String),
      TEff.closeConn c r ∉ (activateLoop a l).2 := by
  intro l
  induction l with
  | nil => intro c r; simp [activateLoop]
  | cons hd tl ih =>
    intro c r
    obtain ⟨t, e⟩ := hd
    simp only [activateLoop]
    split
    · split
      · simp [ih c r]
      · simpa using ih c r
    · split
      · simp
      · simpa using ih c r

lemma activateLoop_one_timer (a : Nat) :
    ∀ l : List (Nat × PendingEntry),
      ((activateLoop a l).2.filter isSetTimeout).length ≤ 1 := by
  intro l
  induction l with
  | nil => simp [activateLoop]
  | cons hd tl ih =>
    obtain ⟨t, e⟩ := hd
    simp only [activateLoop]
    split
    · split
      · simpa [isSetTimeout] using ih
      · simpa using ih
    · split
      · simp [isSetTimeout]
      · simpa using ih

lemma activateLoop_confirm (a : Nat) :
    ∀ l : List (Nat × PendingEntry),
      (∀ p ∈ l, p.1 ≠ a → p.2.timer = true) →
      ∀ p ∈ (activateLoop a l).1, p.1 = a → p.2.timer = false := by
  intro l
  induction l with
  | nil => intro _ p hp; simp [activateLoop] at hp
  | cons hd tl ih =>
    intro hl p hp hpa
    obtain ⟨t, e⟩ := hd
    have htl : ∀ q ∈ tl, q.1 ≠ a → q.2.timer = true :=
      fun q hq => hl q (List.mem_cons_of_mem _ hq)
    simp only [activateLoop] at hp
    split at hp
    case isTrue hta =>
      split at hp
      case isTrue het =>
        rcases List.mem_cons.mp hp with rfl | hmem
        · rfl
        · exact ih htl p hmem hpa
      case isFalse het =>
        rcases List.mem_cons.mp hp with rfl | hmem
        · simpa using het
        · exact ih htl p hmem hpa
    case isFalse hta =>
      split at hp
      case isTrue hnt =>
        have he := hl (t, e) (List.mem_cons_self (t, e) tl) hta
        simp at he
        simp [he] at hnt
      case isFalse hnt =>
        rcases List.mem_cons.mp hp with rfl | hmem
        · exact absurd hpa hta
        · exact ih htl p hmem hpa

lemma lookup_filter_self (t : Nat) :
    ∀ l : List (Nat × PendingEntry),
      (l.filter (fun p => !(p.1 == t))).lookup t = none := by
  intro l
  induction l with
  | nil => rfl
  | cons hd tl ih =>
    obtain ⟨k, v⟩ := hd
    by_cases hk : k = t
    · simpa [List.filter_cons, hk] using ih
    · have hk2 : (t == k) = false := beq_eq_false_iff_ne.mpr (Ne.symm hk)
      simpa [List.filter_cons, List.lookup, hk, hk2] using ih

/-- Claim C6 counterexample.  First: with two timerless tracked entries
and a foreground change to an untracked tab, only the first entry gets a
timer — the handler returns after arming one, so "every other entry that
lacks a running timer" does not get one.  Second: a foreground change to a
tracked entry cancels its timer but does not remove the entry. -/
theorem C6_pending_selection_counterexample :
    onTabActivated twoPending 3 = (twoPendingAfter, [TEff.setTimeout 1 5000]) ∧
    onTabActivated onePendingArmed 1
      = (onePendingClear, [TEff.clearTimeout 1]) := by
  exact ⟨rfl, rfl⟩

/-- Claim C6 (amended).  On a foreground-target-change event the handler
scans entries in insertion order: it removes no entry and closes no
connection, arms at most one 5000 ms timer per event (on the first
non-foreground entry lacking one, then stops), and — provided every other
tracked entry already has a running timer — leaves every entry of the
foreground target with its timer cancelled (eviction prevented).  When an
entry's timer fires while the entry is still tracked, the entry is removed
and its connection closed exactly once with the inactivity reason plus one
timeout notification; a timer firing for an already-removed entry closes
nothing. -/
theorem C6_pending_selection_amended :
    (∀ (s : TSState) (a : Nat),
      (onTabActivated s a).1.pending.map Prod.fst = s.pending.map Prod.fst ∧
      (∀ c r, TEff.closeConn c r ∉ (onTabActivated s a).2) ∧
      ((onTabActivated s a).2.filter isSetTimeout).length ≤ 1 ∧
      ((∀ p ∈ s.pending, p.1 ≠ a → p.2.timer = true) →
        ∀ p ∈ (onTabActivated s a).1.pending, p.1 = a → p.2.timer = false)) ∧
    (∀ (s : TSState) (t c : Nat),
      ((s.pending.lookup t).isSome = true →
        (timerCallback s t c).2
          = [TEff.closeConn c inactivityReason, TEff.notifyTimeout t] ∧
        (timerCallback s t c).1.pending.lookup t = none) ∧
      ((s.pending.lookup t).isSome = false → (timerCallback s t c).2 = [])) := by
  constructor
  · intro s a
    refine ⟨activateLoop_keys a s.pending, ?_, ?_, ?_⟩
    · intro c r
      exact activateLoop_no_close a s.pending c r
    · exact activateLoop_one_timer a s.pending
    · intro hl
      exact activateLoop_confirm a s.pending hl
  · intro s t c
    constructor
    · intro hsome
      unfold timerCallback
      rw [hsome]
      exact ⟨rfl, lookup_filter_self t s.pending⟩
    · intro hnone
      unfold timerCallback
      rw [hnone]
      rfl

/-- Witness for amended C6: firing the armed timer of entry 1 in the
concrete two-entry state closes connection 10 exactly once with the
inactivity reason and notifies tab 1. -/
theorem C6_pending_selection_amended_witness :
    (timerCallback twoPending 1 10).2
      = [TEff.closeConn 10 inactivityReason, TEff.notifyTimeout 1] := by
  exact ((C6_pending_selection_amended.2 twoPending 1 10).1 (by decide)).1
